import Mathlib

/-!
Shallow embedding of the OAuth token-management core of the `feishu_mcp` repository:
the `OAuthManager` class (`src/feishu_mcp_sdk/api/oauth_manager.py`) and the
authenticated-request pipeline (`src/feishu_mcp_sdk/services/http_client_mixin.py`).

Modelling conventions:
- Python `Optional[str]` becomes `Option String`; Python truthiness of such a value
  (`if tok:`) is `optTruthy` (both `None` and the empty string are falsy).
- The durable token-cache file becomes an explicit `Option CacheRecord` field of the
  manager state plus a `CacheFileState` input for loading (absent / unreadable or
  unparseable / parsed record).
- Each outbound HTTP interaction is an oracle value supplied as an argument: the
  token endpoint answers with a `TokenResp`, the document API with a `Resp`.
  A `World` bundles the oracles a whole pipeline request may consult.
- Raised Python exceptions become `Except PyErr`; every outbound POST that the code
  starts is logged in a `List Call` trace so call counts can be reasoned about.
-/

namespace FeishuMcp

/-- Python truthiness of an `Optional[str]` value: `None` and `""` are falsy. -/
def optTruthy : Option String → Bool
  | none => false
  | some s => !(s == "")

/-- One parsed record of the durable cache file `~/.feishu_mcp/tokens.json`: the JSON
object `\x7bapp_id, access_token, refresh_token\x7d`; each field is `Option` because
`dict.get` yields `None` for a missing or null field. -/
structure CacheRecord where
  app_id : Option String
  access_token : Option String
  refresh_token : Option String
deriving DecidableEq, Repr

/-- State of an `OAuthManager` instance: its configuration attributes, the in-memory
token pair, and the durable cache file content (`none` = no file on disk). -/
structure MgrState where
  app_id : String
  app_secret : String
  oauth_redirect_uri : String
  oauth_callback_port : Nat
  oauth_scope : String
  oauth_authorize_url : String
  oauth_token_url : String
  user_token : Option String
  refresh_token : Option String
  cache : Option CacheRecord
deriving DecidableEq, Repr

/-- Embeds `OAuthManager._save_tokens_to_cache` (oauth_manager.py lines 95-107):
overwrite the cache file with the current `app_id` and token pair. -/
def save_tokens_to_cache (st : MgrState) : MgrState :=
  { st with cache := some ⟨some st.app_id, st.user_token, st.refresh_token⟩ }

/-- Embeds `OAuthManager.set_tokens` (lines 109-121): set the access token, replace
the refresh token only when the new one is truthy, then persist to the cache. -/
def set_tokens (st : MgrState) (access : String) (refresh : Option String) : MgrState :=
  let st1 := { st with user_token := some access }
  let st2 := if optTruthy refresh then { st1 with refresh_token := refresh } else st1
  save_tokens_to_cache st2

/-- Embeds `OAuthManager.clear_tokens` (lines 123-132): drop both in-memory tokens
and remove the cache file. -/
def clear_tokens (st : MgrState) : MgrState :=
  { st with user_token := none, refresh_token := none, cache := none }

/-- Oracle for one POST to the token endpoint, covering every branch the source
distinguishes: the request itself raises (`networkError`); `raise_for_status` raises
on a non-2xx status (`httpError`, carrying that status); `.json()` raises
(`malformed`); or a parsed JSON body with optional `access_token` / `refresh_token`
fields (`body`). -/
inductive TokenResp where
  | networkError
  | httpError (status : Nat)
  | malformed
  | body (access_token refresh_token : Option String)
deriving DecidableEq, Repr

/-- Python exceptions the embedded code can raise. -/
inductive PyErr where
  | requestError
  | httpStatusError (status : Nat)
  | jsonError
  | valueError (msg : String)
  | timeoutError
  | cancelledError
  | keyboardInterrupt
  | osError
deriving DecidableEq, Repr

/-- Embeds `OAuthManager.refresh_access_token` (lines 312-353): no-op when no truthy
refresh token is held; otherwise one POST to the token endpoint. `except
httpx.HTTPStatusError` clears the tokens only when the status is 401; `except
Exception` (network error, unparseable body) always clears; a parsed body stores the
tokens only when its `access_token` is truthy, and the (possibly falsy)
`access_token` is returned either way. -/
def refresh_access_token (st : MgrState) (resp : TokenResp) : Option String × MgrState :=
  if optTruthy st.refresh_token then
    match resp with
    | .networkError => (none, clear_tokens st)
    | .httpError s => if s = 401 then (none, clear_tokens st) else (none, st)
    | .malformed => (none, clear_tokens st)
    | .body access refresh =>
      match access with
      | some a => if a = "" then (some a, st) else (some a, set_tokens st a refresh)
      | none => (none, st)
  else (none, st)

/-- Embeds `OAuthManager.get_access_token` (lines 280-310): exchange an
authorization code; all HTTP/parse failures propagate as exceptions, a parsed body
yields its optional `access_token` / `refresh_token` pair. -/
def get_access_token (resp : TokenResp) : Except PyErr (Option String × Option String) :=
  match resp with
  | .networkError => .error .requestError
  | .httpError s => .error (.httpStatusError s)
  | .malformed => .error .jsonError
  | .body a r => .ok (a, r)

/-- Embeds `OAuthManager.setup_user_token` (lines 355-366): obtain a code (the
`codeRes` oracle stands for `get_code`, which may raise), exchange it, raise
`ValueError` when the exchange yields no truthy access token, else store the
tokens. -/
def setup_user_token (st : MgrState) (codeRes : Except PyErr String) (resp : TokenResp) :
    Except PyErr MgrState :=
  match codeRes with
  | .error e => .error e
  | .ok _ =>
    match get_access_token resp with
    | .error e => .error e
    | .ok (access, refresh) =>
      match access with
      | some a =>
        if a = "" then .error (.valueError "Failed to obtain access token")
        else .ok (set_tokens st a refresh)
      | none => .error (.valueError "Failed to obtain access token")

/-- The part of `OAuthManager.ensure_user_token` (lines 368-385) that runs when no
truthy token is held: run `setup_user_token`, then raise `ValueError` unless a
truthy token resulted. -/
def ensure_after_setup (st : MgrState) (codeRes : Except PyErr String) (resp : TokenResp) :
    Except PyErr (String × MgrState) :=
  match setup_user_token st codeRes resp with
  | .error e => .error e
  | .ok st1 =>
    match st1.user_token with
    | some t =>
      if t = "" then .error (.valueError "Failed to obtain user access token")
      else .ok (t, st1)
    | none => .error (.valueError "Failed to obtain user access token")

/-- Embeds `OAuthManager.ensure_user_token` (lines 368-385): return the held token
when truthy, otherwise run the authorization flow. -/
def ensure_user_token (st : MgrState) (codeRes : Except PyErr String) (resp : TokenResp) :
    Except PyErr (String × MgrState) :=
  match st.user_token with
  | some t => if t = "" then ensure_after_setup st codeRes resp else .ok (t, st)
  | none => ensure_after_setup st codeRes resp

/-- State of the durable cache file as found on disk at load time. -/
inductive CacheFileState where
  | absent
  | unreadable
  | record (r : CacheRecord)
deriving DecidableEq, Repr

/-- Embeds `OAuthManager._load_tokens_from_cache` (lines 81-93): a missing file does
nothing; any read or parse failure is swallowed by the `except` clause and does
nothing; a parsed record sets both in-memory tokens only when its `app_id` equals
the manager's `app_id` (`data.get("app_id") == self.app_id`, which is false when the
field is missing). -/
def load_tokens_from_cache (st : MgrState) (c : CacheFileState) : MgrState :=
  match c with
  | .absent => st
  | .unreadable => st
  | .record r =>
    if r.app_id = some st.app_id then
      { st with user_token := r.access_token, refresh_token := r.refresh_token }
    else st

/-- One response of the document API: its HTTP status plus an abstract `tag`
identifying the individual response, so that "returns that response" is expressible. -/
structure Resp where
  status : Nat
  tag : Nat
deriving DecidableEq, Repr

/-- Kinds of outbound HTTP calls the pipeline can start: a document-API call, a
refresh POST to the token endpoint, an authorization-code exchange POST. -/
inductive Call where
  | api
  | refreshPost
  | exchangePost
deriving DecidableEq, Repr

/-- Outbound calls started by one run of `refresh_access_token`: one POST to the
token endpoint exactly when a truthy refresh token is held (lines 322-336). -/
def refresh_calls (st : MgrState) : List Call :=
  if optTruthy st.refresh_token then [Call.refreshPost] else []

/-- Outbound calls started by one run of `setup_user_token`: the exchange POST is
reached only when `get_code` returned a code rather than raising (lines 362-363). -/
def setup_calls (codeRes : Except PyErr String) : List Call :=
  match codeRes with
  | .error _ => []
  | .ok _ => [Call.exchangePost]

/-- Header dictionaries, modelled extensionally: a map from header name to the
optional value stored under that name. -/
def Headers : Type := String → Option String

/-- Python `headers[k] = v`. -/
def dictSet (h : Headers) (k v : String) : Headers :=
  fun q => if q = k then some v else h q

/-- Python `headers.setdefault(k, v)`: write `v` only when `k` has no value yet. -/
def dictSetdefault (h : Headers) (k v : String) : Headers :=
  fun q =>
    if q = k then
      match h k with
      | some w => some w
      | none => some v
    else h q

/-- Python `\x7b\x7d`, the dictionary `_request` creates when the caller passed no
headers. -/
def emptyHeaders : Headers := fun _ => none

/-- Oracles for every outbound interaction one pipeline request may perform:
`apiResp n` answers the (n+1)-th document-API call, `refreshResp` the at most one
refresh POST, and `codeRes i` / `exchangeResp i` the (i+1)-th run of the
authorization flow (`setup_user_token`). -/
structure World where
  apiResp : Nat → Resp
  refreshResp : TokenResp
  codeRes : Nat → Except PyErr String
  exchangeResp : Nat → TokenResp

/-- Everything one run of the pipeline `_request` produces: the returned response or
raised exception, the final header dictionary, the final manager state, and the
trace of outbound HTTP calls in order. -/
structure ReqOutcome where
  result : Except PyErr Resp
  headers : Headers
  state : MgrState
  calls : List Call

/-- Embeds the `else` branch of the 401 handler in `HTTPClientMixin._request`
(http_client_mixin.py lines 81-95): refresh yielded no truthy token, so clear the
tokens, run the full `setup_user_token` flow (consuming authorization-flow slot
`si` of the world), raise `ValueError` unless a truthy token resulted, then retry
the original call once. `rc` is the call trace accumulated by the refresh attempt. -/
def request_reauth (st : MgrState) (h2 : Headers) (w : World) (si : Nat) (rc : List Call) :
    ReqOutcome :=
  let st1 := clear_tokens st
  let sc := setup_calls (w.codeRes si)
  match setup_user_token st1 (w.codeRes si) (w.exchangeResp si) with
  | .error e => ⟨.error e, h2, st1, [Call.api] ++ rc ++ sc⟩
  | .ok st2 =>
    match st2.user_token with
    | some t =>
      if t = "" then
        ⟨.error (.valueError "Failed to obtain user access token after re-authentication"),
          h2, st2, [Call.api] ++ rc ++ sc⟩
      else
        let h3 := dictSet h2 "Authorization" ("Bearer " ++ t)
        ⟨.ok (w.apiResp 1), h3, st2, [Call.api] ++ rc ++ sc ++ [Call.api]⟩
    | none =>
      ⟨.error (.valueError "Failed to obtain user access token after re-authentication"),
        h2, st2, [Call.api] ++ rc ++ sc⟩

/-- Embeds `HTTPClientMixin._request` from the point where a token is in hand
(lines 65-100): write the `Authorization` header, default `Content-Type`, issue the
original call; on a 401, `_refresh_token_if_needed` runs `refresh_access_token`,
and a truthy new token leads to exactly one retry, anything else to the
re-authorization branch. The 401 check is made only on the first response; the
retried response is returned as-is. -/
def request_with_token (st : MgrState) (tok : String) (h0 : Headers) (w : World) (si : Nat) :
    ReqOutcome :=
  let h1 := dictSet h0 "Authorization" ("Bearer " ++ tok)
  let h2 := dictSetdefault h1 "Content-Type" "application/json"
  let r0 := w.apiResp 0
  if r0.status = 401 then
    let rc := refresh_calls st
    let pr := refresh_access_token st w.refreshResp
    match pr.1 with
    | some t =>
      if t = "" then request_reauth pr.2 h2 w si rc
      else
        let h3 := dictSet h2 "Authorization" ("Bearer " ++ t)
        ⟨.ok (w.apiResp 1), h3, pr.2, [Call.api] ++ rc ++ [Call.api]⟩
    | none => request_reauth pr.2 h2 w si rc
  else
    ⟨.ok r0, h2, st, [Call.api]⟩

/-- The path of `_request` where `_ensure_token` finds no truthy token: run the
authorization flow (slot 0 of the world's flow oracles); on failure the exception
propagates with the caller's headers untouched and no API call made; on success
proceed with the new token, a later re-authorization consuming slot 1. -/
def request_start_noToken (st : MgrState) (h0 : Headers) (w : World) : ReqOutcome :=
  match ensure_after_setup st (w.codeRes 0) (w.exchangeResp 0) with
  | .error e => ⟨.error e, h0, st, setup_calls (w.codeRes 0)⟩
  | .ok (t, st1) =>
    let r := request_with_token st1 t h0 w 1
    ⟨r.result, r.headers, r.state, setup_calls (w.codeRes 0) ++ r.calls⟩

/-- Embeds `HTTPClientMixin._request` (lines 48-100) end to end: first
`_ensure_token` (which may run the authorization flow, consuming slot 0 of the
world's flow oracles, and whose exception propagates before any header is
written), then `request_with_token`; a re-authorization inside the 401 handler
consumes the next flow slot. -/
def request (st : MgrState) (headers : Option Headers) (w : World) : ReqOutcome :=
  let h0 := match headers with
    | some h => h
    | none => emptyHeaders
  match st.user_token with
  | some t =>
    if t = "" then request_start_noToken st h0 w else request_with_token st t h0 w 0
  | none => request_start_noToken st h0 w

/-- Embeds the route registration of `get_code` (oauth_manager.py line 215):
`app.router.add_get("/oauth/callback", handle_callback)` registers the literal
string, independent of the manager's configured `oauth_redirect_uri`. -/
def registered_callback_route (_st : MgrState) : String := "/oauth/callback"

/-- The redirect URI the manager itself constructs (lines 228 and 300):
`http://localhost:\x7bport\x7d\x7bredirect path\x7d`. -/
def redirect_uri_value (st : MgrState) : String :=
  "http://localhost:" ++ toString st.oauth_callback_port ++ st.oauth_redirect_uri

/-- Embeds the authorization-URL construction of `get_code` (lines 225-232): an
f-string concatenation; the scope parameter is appended only when `oauth_scope` is
truthy. No URL-encoding is applied anywhere. -/
def auth_url (st : MgrState) : String :=
  let base := st.oauth_authorize_url ++ "?client_id=" ++ st.app_id
    ++ "&redirect_uri=" ++ redirect_uri_value st
    ++ "&response_type=code"
  if st.oauth_scope = "" then base else base ++ "&scope=" ++ st.oauth_scope

/-- Whether `p` is an initial segment of `l` (over characters). -/
def leadsWith : List Char → List Char → Bool
  | [], _ => true
  | _ :: _, [] => false
  | a :: p, b :: l => a == b && leadsWith p l

/-- Whether `p` occurs contiguously inside `l`. -/
def hasSub : List Char → List Char → Bool
  | l, p =>
    match l with
    | [] => leadsWith p []
    | _ :: t => leadsWith p l || hasSub t p

/-- Whether string `p` occurs contiguously inside string `s`. -/
def containsSub (s p : String) : Bool := hasSub s.data p.data

/-- Hexadecimal digit for `n < 16`, upper case. -/
def hexDigit (n : Nat) : Char :=
  if n < 10 then Char.ofNat (48 + n) else Char.ofNat (55 + n)

/-- Unreserved URI characters (RFC 3986): letters, digits, `-` `.` `_` `~`. -/
def isUnreserved (c : Char) : Bool :=
  c.isAlphanum || c == '-' || c == '.' || c == '_' || c == '~'

/-- Modelled from the spec: standard percent-encoding of a URI component value
("redirect_uri (URL-encoded http://localhost:\x7bport\x7d\x7bpath\x7d)"), encoding
every character outside the unreserved set. Used only to compare the spec's claimed
redirect_uri value with the one the source builds. -/
def percentEncode (s : String) : String :=
  String.mk (s.data.foldr
    (fun c acc =>
      if isUnreserved c then c :: acc
      else '%' :: hexDigit (c.toNat / 16) :: hexDigit (c.toNat % 16) :: acc)
    [])

/-- The pending `asyncio.Future` of one `get_code` run: unresolved, resolved with a
code (`set_result`), or resolved with the no-code `ValueError`
(`set_exception`). -/
inductive Fut where
  | pending
  | resolvedCode (code : String)
  | resolvedNoCode
deriving DecidableEq, Repr

/-- Python `future.done()`. -/
def Fut.done : Fut → Bool
  | .pending => false
  | _ => true

/-- Which of the two bodies of `handle_callback` a response carries; the exact HTML
markup is presentation, both are served by `web.Response` with its default
status 200. -/
inductive CallbackBody where
  | successPage
  | failurePage
deriving DecidableEq, Repr

/-- An HTTP response of the callback listener. -/
structure CallbackResp where
  status : Nat
  body : CallbackBody
deriving DecidableEq, Repr

/-- Embeds `handle_callback` inside `get_code` (oauth_manager.py lines 193-211):
`code = request.query.get("code")`; a truthy code resolves the future (guarded by
`done()`) and returns the success page; a falsy one (absent parameter or empty
value) sets the no-code `ValueError` (same guard) and returns the failure page.
Both responses use aiohttp's default status 200. -/
def handle_callback (query_code : Option String) (f : Fut) : Fut × CallbackResp :=
  match query_code with
  | some c =>
    if c = "" then
      (if f.done then f else Fut.resolvedNoCode, ⟨200, CallbackBody.failurePage⟩)
    else
      (if f.done then f else Fut.resolvedCode c, ⟨200, CallbackBody.successPage⟩)
  | none => (if f.done then f else Fut.resolvedNoCode, ⟨200, CallbackBody.failurePage⟩)

/-- Runs a sequence of callback requests against the listener, threading the future
and collecting the responses in order. -/
def run_callbacks (qs : List (Option String)) (f : Fut) : Fut × List CallbackResp :=
  match qs with
  | [] => (f, [])
  | q :: rest =>
    let p := handle_callback q f
    let pr := run_callbacks rest p.1
    (pr.1, p.2 :: pr.2)

/-- How the wait for the authorization code inside `get_code` ends (lines 239-254):
the future yields a code, yields the no-code `ValueError`, the wait times out, the
task is cancelled, or the user interrupts. -/
inductive WaitOutcome where
  | gotCode (code : String)
  | failedNoCode
  | timedOut
  | cancelled
  | interrupted
deriving DecidableEq, Repr

/-- Observable resource actions of one `get_code` run, in program order. -/
inductive ResAct where
  | startListener
  | openBrowser
  | stopListener
  | cleanupRunner
  | graceSleep
deriving DecidableEq, Repr

/-- How far the listener start-up inside the `try` block gets (lines 220-222):
`runner.setup()` raises (`site` still `None`), `site.start()` raises (`site`
assigned), or the listener starts. -/
inductive StartPhase where
  | setupFails
  | startFails
  | started
deriving DecidableEq, Repr

/-- Value or exception `get_code` ends with for each wait outcome (lines 239-259):
a code is returned; the no-code `ValueError` set on the future propagates; the
timeout is re-raised as `asyncio.TimeoutError`; cancellation and
`KeyboardInterrupt` are re-raised. -/
def get_code_result : WaitOutcome → Except PyErr String
  | .gotCode c => .ok c
  | .failedNoCode => .error (.valueError "Authorization failed: no code received")
  | .timedOut => .error .timeoutError
  | .cancelled => .error .cancelledError
  | .interrupted => .error .keyboardInterrupt

/-- Embeds the `try` body of `get_code` without its `finally` clause: the actions
performed and the result produced before cleanup runs. -/
def get_code_body (p : StartPhase) (o : WaitOutcome) : Except PyErr String × List ResAct :=
  match p with
  | .setupFails => (.error .osError, [])
  | .startFails => (.error .osError, [])
  | .started => (get_code_result o, [ResAct.startListener, ResAct.openBrowser])

/-- The `finally` clause of `get_code` (lines 265-278): stop the site when it was
assigned, clean up the runner, sleep 0.1s so the OS releases the port; each step's
own errors are swallowed, so all of them run on every path. -/
def get_code_cleanup (p : StartPhase) : List ResAct :=
  match p with
  | .setupFails => [ResAct.cleanupRunner, ResAct.graceSleep]
  | .startFails => [ResAct.stopListener, ResAct.cleanupRunner, ResAct.graceSleep]
  | .started => [ResAct.stopListener, ResAct.cleanupRunner, ResAct.graceSleep]

/-- Embeds `get_code` from the point where the callback port was found free: the
`try` body followed unconditionally by the `finally` cleanup, the body's result
(value or exception) propagating only after the cleanup actions. -/
def get_code_run (p : StartPhase) (o : WaitOutcome) : Except PyErr String × List ResAct :=
  ((get_code_body p o).1, (get_code_body p o).2 ++ get_code_cleanup p)

/-- A concrete manager state holding the token pair `T1`/`R1` under the default
configuration values of `config.py`. -/
def exampleState : MgrState :=
  { app_id := "APP"
    app_secret := "SECRET"
    oauth_redirect_uri := "/oauth/callback"
    oauth_callback_port := 8089
    oauth_scope := "docs:doc drive:drive docx:document"
    oauth_authorize_url := "https://accounts.feishu.cn/open-apis/authen/v1/authorize"
    oauth_token_url := "https://open.feishu.cn/open-apis/authen/v2/oauth/token"
    user_token := some "T1"
    refresh_token := some "R1"
    cache := some ⟨some "APP", some "T1", some "R1"⟩ }

/-- A world where the first API call answers 401, the refresh POST fails with a
500 status, and the re-authorization flow then succeeds, so the retried call is
answered by response `⟨200, 1⟩`. -/
def exampleWorld : World :=
  { apiResp := fun n => if n = 0 then ⟨401, 0⟩ else ⟨200, 1⟩
    refreshResp := TokenResp.httpError 500
    codeRes := fun _ => .ok "abc123"
    exchangeResp := fun _ => TokenResp.body (some "T2") (some "R2") }

/-- A world where the first API call answers 401, the refresh POST succeeds with a
new token `T2`, and the retried call answers 401 again (response `⟨401, 1⟩`). -/
def refreshOkWorld : World :=
  { apiResp := fun n => if n = 0 then ⟨401, 0⟩ else ⟨401, 1⟩
    refreshResp := TokenResp.body (some "T2") (some "R2")
    codeRes := fun _ => .error .timeoutError
    exchangeResp := fun _ => TokenResp.malformed }

/-- The example state reconfigured with a non-default callback path `/cb`. -/
def mismatchState : MgrState := { exampleState with oauth_redirect_uri := "/cb" }

/-- A concrete configured state with a short authorize URL, for evaluating the
authorization-URL construction. -/
def c5State : MgrState :=
  { exampleState with
    oauth_authorize_url := "https://auth.example/authorize"
    oauth_scope := "docs" }

/-- A freshly constructed manager state before any token was loaded or set. -/
def freshState : MgrState :=
  { exampleState with user_token := none, refresh_token := none, cache := none }

/-- A caller-supplied header dictionary that already carries `Authorization` and
`Content-Type` values plus an unrelated key. -/
def suppliedHeaders : Headers :=
  fun k =>
    if k = "Authorization" then some "Bearer OLD"
    else if k = "Content-Type" then some "text/plain"
    else if k = "X-Trace" then some "42"
    else none

/-- Contract between the header dictionary `h0` a caller hands to `_request` and
the dictionary `h1` it holds when the call is done: `Authorization` carries some
bearer token (overwritten even if the caller set it), a caller-supplied
`Content-Type` is preserved, an absent one is defaulted to `application/json`, and
every other key is untouched. -/
def headersContract (h0 h1 : Headers) : Prop :=
  (∃ t, h1 "Authorization" = some ("Bearer " ++ t)) ∧
  (∀ v, h0 "Content-Type" = some v → h1 "Content-Type" = some v) ∧
  (h0 "Content-Type" = none → h1 "Content-Type" = some "application/json") ∧
  (∀ k, k ≠ "Authorization" → k ≠ "Content-Type" → h1 k = h0 k)

/-- C1 (counterexample): with a refresh token held, a non-2xx token-endpoint
status other than 401 (here 500) makes `refresh_access_token` return `none` while
leaving the in-memory tokens and the durable cache record untouched — refuting the
claim that every failing refresh clears them. -/
theorem C1_counterexample :
    (refresh_access_token exampleState (TokenResp.httpError 500)).1 = none ∧
    (refresh_access_token exampleState (TokenResp.httpError 500)).2 = exampleState ∧
    exampleState.user_token = some "T1" ∧
    exampleState.cache ≠ none := by
  refine ⟨rfl, rfl, rfl, ?_⟩
  decide

/-- C1 (amended): when a truthy refresh token is held, `refresh_access_token`
clears both the in-memory tokens and the durable cache record and returns `none`
exactly on a 401 token-endpoint status, a network error, or an unparseable
response; any other non-2xx status returns `none` with all stored tokens left in
place, and a parsed response without a truthy access token returns that value with
the state unchanged. -/
theorem C1_refresh_failure (st : MgrState) (resp : TokenResp)
    (hrt : optTruthy st.refresh_token = true) :
    (resp = TokenResp.networkError ∨ resp = TokenResp.malformed ∨
        resp = TokenResp.httpError 401 →
      refresh_access_token st resp = (none, clear_tokens st)) ∧
    (∀ s, s ≠ 401 → resp = TokenResp.httpError s →
      refresh_access_token st resp = (none, st)) ∧
    (∀ a r, resp = TokenResp.body a r → optTruthy a = false →
      refresh_access_token st resp = (a, st)) := by
  refine ⟨?_, ?_, ?_⟩
  · rintro (rfl | rfl | rfl) <;> simp [refresh_access_token, hrt]
  · rintro s hs rfl
    simp [refresh_access_token, hrt, hs]
  · rintro a r rfl ha
    match a with
    | none => simp [refresh_access_token, hrt]
    | some x =>
      have hx : x = "" := by
        by_contra hne
        simp [optTruthy, hne] at ha
      subst hx
      simp [refresh_access_token, hrt]

/-- C1 witness: the amended theorem applied at a concrete state and a concrete
network failure. -/
theorem C1_refresh_failure_witness :
    refresh_access_token exampleState TokenResp.networkError =
      (none, clear_tokens exampleState) :=
  (C1_refresh_failure exampleState TokenResp.networkError (by decide)).1 (Or.inl rfl)

theorem refresh_calls_length (st : MgrState) : (refresh_calls st).length ≤ 1 := by
  unfold refresh_calls
  split <;> simp

theorem refresh_calls_api (st : MgrState) : (refresh_calls st).count Call.api = 0 := by
  unfold refresh_calls
  split <;> decide

theorem setup_calls_length (c : Except PyErr String) : (setup_calls c).length ≤ 1 := by
  cases c <;> simp [setup_calls]

theorem setup_calls_api (c : Except PyErr String) : (setup_calls c).count Call.api = 0 := by
  cases c <;> simp [setup_calls]

theorem request_reauth_calls_cases (st : MgrState) (h2 : Headers) (w : World) (si : Nat)
    (rc : List Call) :
    (request_reauth st h2 w si rc).calls = [Call.api] ++ rc ++ setup_calls (w.codeRes si) ∨
    (request_reauth st h2 w si rc).calls =
      [Call.api] ++ rc ++ setup_calls (w.codeRes si) ++ [Call.api] := by
  simp only [request_reauth]
  split
  · exact Or.inl rfl
  · split
    · split
      · exact Or.inl rfl
      · exact Or.inr rfl
    · exact Or.inl rfl

theorem request_reauth_bound (st : MgrState) (h2 : Headers) (w : World) (si : Nat)
    (rc : List Call) :
    (request_reauth st h2 w si rc).calls.length ≤ rc.length + 3 ∧
    (request_reauth st h2 w si rc).calls.count Call.api ≤ rc.count Call.api + 2 := by
  have hl := setup_calls_length (w.codeRes si)
  have ha := setup_calls_api (w.codeRes si)
  rcases request_reauth_calls_cases st h2 w si rc with hc | hc <;>
    rw [hc] <;>
    constructor <;>
    simp [List.count_append, List.count_cons, ha] <;>
    omega

theorem request_with_token_bound (st : MgrState) (tok : String) (h0 : Headers)
    (w : World) (si : Nat) :
    (request_with_token st tok h0 w si).calls.length ≤ 4 ∧
    (request_with_token st tok h0 w si).calls.count Call.api ≤ 2 := by
  have hl := refresh_calls_length st
  have ha := refresh_calls_api st
  simp only [request_with_token]
  split
  · split
    · split
      · refine ⟨le_trans (request_reauth_bound _ _ w si _).1 ?_,
          le_trans (request_reauth_bound _ _ w si _).2 ?_⟩ <;> omega
      · constructor
        · simp only [List.length_append, List.length_cons, List.length_nil]
          omega
        · simp [List.count_append, List.count_cons, ha]
    · refine ⟨le_trans (request_reauth_bound _ _ w si _).1 ?_,
        le_trans (request_reauth_bound _ _ w si _).2 ?_⟩ <;> omega
  · constructor
    · simp
    · simp [List.count_cons]

theorem request_start_noToken_bound (st : MgrState) (h0 : Headers) (w : World) :
    (request_start_noToken st h0 w).calls.length ≤ 5 ∧
    (request_start_noToken st h0 w).calls.count Call.api ≤ 2 := by
  have hl := setup_calls_length (w.codeRes 0)
  have ha := setup_calls_api (w.codeRes 0)
  rcases h : ensure_after_setup st (w.codeRes 0) (w.exchangeResp 0) with e | ⟨t, st1⟩
  · simp only [request_start_noToken, h]
    constructor
    · omega
    · simp [ha]
  · simp only [request_start_noToken, h]
    have hb := request_with_token_bound st1 t h0 w 1
    constructor
    · simp only [List.length_append]
      omega
    · simp only [List.count_append, ha]
      omega

/-- C2 (counterexample): with a token pair held, a request whose first response is
a 401, whose refresh POST fails with a 500 and whose re-authorization then
succeeds issues four HTTP calls — the original call, the refresh POST, the
authorization-code exchange POST and the retry — exceeding the claimed bound of 3
on exactly the path the claim singles out. -/
theorem C2_counterexample :
    (request exampleState (some emptyHeaders) exampleWorld).calls =
      [Call.api, Call.refreshPost, Call.exchangePost, Call.api] ∧
    (request exampleState (some emptyHeaders) exampleWorld).calls.length = 4 := by
  exact ⟨rfl, rfl⟩

/-- C2 (amended): per pipeline request at most 5 HTTP calls are issued — the
original call, at most one authorization-code exchange while ensuring a token, at
most one refresh POST, at most one re-authorization exchange after a failed
refresh, and at most one retry; in particular the original call is issued at most
twice and there is no unbounded retry loop. -/
theorem C2_call_bound (st : MgrState) (headers : Option Headers) (w : World) :
    (request st headers w).calls.length ≤ 5 ∧
    (request st headers w).calls.count Call.api ≤ 2 := by
  cases headers with
  | none =>
    cases hu : st.user_token with
    | none => simpa only [request, hu] using request_start_noToken_bound st emptyHeaders w
    | some t =>
      by_cases ht : t = ""
      · simpa only [request, hu, ht, if_pos] using request_start_noToken_bound st emptyHeaders w
      · have hb := request_with_token_bound st t emptyHeaders w 0
        simp only [request, hu, if_neg ht]
        exact ⟨le_trans hb.1 (by omega), hb.2⟩
  | some h =>
    cases hu : st.user_token with
    | none => simpa only [request, hu] using request_start_noToken_bound st h w
    | some t =>
      by_cases ht : t = ""
      · simpa only [request, hu, ht, if_pos] using request_start_noToken_bound st h w
      · have hb := request_with_token_bound st t h w 0
        simp only [request, hu, if_neg ht]
        exact ⟨le_trans hb.1 (by omega), hb.2⟩

theorem dictSet_same (h : Headers) (k v : String) : dictSet h k v k = some v := by
  simp [dictSet]

theorem dictSet_other (h : Headers) (k v q : String) (hq : q ≠ k) :
    dictSet h k v q = h q := by
  simp [dictSet, hq]

theorem dictSetdefault_other (h : Headers) (k v q : String) (hq : q ≠ k) :
    dictSetdefault h k v q = h q := by
  simp [dictSetdefault, hq]

theorem dictSetdefault_of_some (h : Headers) (k v w : String) (hw : h k = some w) :
    dictSetdefault h k v k = some w := by
  simp [dictSetdefault, hw]

theorem dictSetdefault_of_none (h : Headers) (k v : String) (hw : h k = none) :
    dictSetdefault h k v k = some v := by
  simp [dictSetdefault, hw]

theorem refresh_truthy_of_some (st : MgrState) (resp : TokenResp) (t : String)
    (hr : (refresh_access_token st resp).1 = some t) :
    optTruthy st.refresh_token = true := by
  by_contra hf
  rw [Bool.not_eq_true] at hf
  simp [refresh_access_token, hf] at hr

/-- C3 (confirmed): when the manager holds a truthy token, the first response is a
401 and the refresh yields a truthy new token, the pipeline issues exactly the
original call, the one refresh POST and one retry carrying the new bearer token,
and returns the second response as the final result whatever its status — no
further refresh, re-authorization or retry. -/
theorem C3_single_retry (st : MgrState) (headers : Option Headers) (w : World)
    (tok t : String)
    (htok : st.user_token = some tok) (htok2 : tok ≠ "")
    (h401 : (w.apiResp 0).status = 401)
    (hr : (refresh_access_token st w.refreshResp).1 = some t) (ht : t ≠ "") :
    (request st headers w).result = .ok (w.apiResp 1) ∧
    (request st headers w).calls = [Call.api, Call.refreshPost, Call.api] ∧
    (request st headers w).headers "Authorization" = some ("Bearer " ++ t) := by
  have hrt := refresh_truthy_of_some st w.refreshResp t hr
  have hcalls : refresh_calls st = [Call.refreshPost] := by
    simp [refresh_calls, hrt]
  have hreq : request st headers w =
      request_with_token st tok (match headers with
        | some h => h
        | none => emptyHeaders) w 0 := by
    simp only [request, htok, if_neg htok2]
  refine ⟨?_, ?_, ?_⟩ <;>
    rw [hreq] <;>
    simp only [request_with_token, h401, if_pos, hr, if_neg ht, hcalls, dictSet_same,
      List.append_assoc, List.cons_append, List.nil_append]

/-- C3 witness: the theorem applied at a concrete state and world in which even the
retried call answers 401, which is returned as-is. -/
theorem C3_single_retry_witness :
    (request exampleState (some emptyHeaders) refreshOkWorld).result =
      .ok (refreshOkWorld.apiResp 1) ∧
    (request exampleState (some emptyHeaders) refreshOkWorld).calls =
      [Call.api, Call.refreshPost, Call.api] ∧
    (request exampleState (some emptyHeaders) refreshOkWorld).headers "Authorization" =
      some ("Bearer " ++ "T2") :=
  C3_single_retry exampleState (some emptyHeaders) refreshOkWorld "T1" "T2"
    rfl (by decide) rfl rfl (by decide)

/-- C4 (code evaluated at the failing input): with the callback path configured as
`/cb`, the listener still registers only the literal route `/oauth/callback`,
while the redirect URI the manager hands to the authorize endpoint ends in `/cb` —
so the redirect the manager itself constructs is not matched by the listener. -/
theorem C4_route_vs_configured_path :
    registered_callback_route mismatchState = "/oauth/callback" ∧
    mismatchState.oauth_redirect_uri = "/cb" ∧
    registered_callback_route mismatchState ≠ mismatchState.oauth_redirect_uri ∧
    redirect_uri_value mismatchState = "http://localhost:8089/cb" := by
  refine ⟨rfl, rfl, by decide, by decide⟩

theorem leadsWith_self_append (p t : List Char) : leadsWith p (p ++ t) = true := by
  induction p with
  | nil => rfl
  | cons a p ih => simp [leadsWith, ih]

theorem hasSub_of_leadsWith (l p : List Char) (h : leadsWith p l = true) :
    hasSub l p = true := by
  cases l with
  | nil => simpa [hasSub] using h
  | cons b t => simp [hasSub, h]

theorem hasSub_append_left (x l p : List Char) (h : hasSub l p = true) :
    hasSub (x ++ l) p = true := by
  induction x with
  | nil => simpa using h
  | cons a x ih => simp [hasSub, ih]

theorem hasSub_mid (pre mid post : List Char) : hasSub (pre ++ (mid ++ post)) mid = true :=
  hasSub_append_left pre (mid ++ post) mid
    (hasSub_of_leadsWith (mid ++ post) mid (leadsWith_self_append mid post))

theorem containsSub_of_split (s pre mid post : String) (hs : s = pre ++ (mid ++ post)) :
    containsSub s mid = true := by
  subst hs
  simp only [containsSub, String.data_append]
  exact hasSub_mid pre.data mid.data post.data

/-- C5 (counterexample): for a concrete configuration the authorization URL
carries the raw, unencoded `http://localhost:8089/oauth/callback` as the
`redirect_uri` parameter value; the URL-encoded form of that redirect URI differs
from the raw one and occurs nowhere in the URL — refuting the claim that the
parameter value is the URL-encoded form. -/
theorem C5_counterexample :
    containsSub (auth_url c5State)
      ("&redirect_uri=" ++ redirect_uri_value c5State ++ "&") = true ∧
    containsSub (auth_url c5State) (percentEncode (redirect_uri_value c5State)) = false ∧
    percentEncode (redirect_uri_value c5State) ≠ redirect_uri_value c5State := by
  decide

/-- C5 (amended): the authorization URL is the authorize endpoint followed by the
query parameters `client_id`, `redirect_uri`, `response_type=code` and — exactly
when a scope is configured — `scope`, where the `redirect_uri` value is the
literal, unencoded `http://localhost:\x7bport\x7d\x7bpath\x7d`. -/
theorem C5_auth_url (st : MgrState) :
    containsSub (auth_url st)
      ("?client_id=" ++ st.app_id ++ "&redirect_uri=" ++ redirect_uri_value st
        ++ "&response_type=code") = true ∧
    (st.oauth_scope ≠ "" →
      auth_url st = st.oauth_authorize_url ++ "?client_id=" ++ st.app_id
        ++ "&redirect_uri=" ++ redirect_uri_value st ++ "&response_type=code"
        ++ "&scope=" ++ st.oauth_scope) ∧
    (st.oauth_scope = "" →
      auth_url st = st.oauth_authorize_url ++ "?client_id=" ++ st.app_id
        ++ "&redirect_uri=" ++ redirect_uri_value st ++ "&response_type=code") := by
  refine ⟨?_, ?_, ?_⟩
  · by_cases hsc : st.oauth_scope = ""
    · apply containsSub_of_split _ st.oauth_authorize_url _ ""
      simp [auth_url, hsc, String.append_assoc, String.append_empty]
    · apply containsSub_of_split _ st.oauth_authorize_url _ ("&scope=" ++ st.oauth_scope)
      simp [auth_url, hsc, String.append_assoc]
      simp [← String.append_assoc]
  · intro hsc
    simp [auth_url, hsc]
  · intro hsc
    simp [auth_url, hsc]

/-- C5 witness: the amended theorem applied at a concrete configured state with a
scope, evaluating to the full URL with the raw redirect value. -/
theorem C5_auth_url_witness :
    auth_url c5State =
      "https://auth.example/authorize?client_id=APP&redirect_uri=http://localhost:8089/oauth/callback&response_type=code&scope=docs" := by
  have h := (C5_auth_url c5State).2.1 (by decide)
  rw [h]
  decide

theorem handle_callback_status (q : Option String) (f : Fut) :
    (handle_callback q f).2.status = 200 := by
  cases q with
  | none => rfl
  | some c =>
    by_cases hc : c = "" <;> simp [handle_callback, hc]

theorem handle_callback_done (q : Option String) (f : Fut) (hf : f.done = true) :
    (handle_callback q f).1 = f := by
  cases q with
  | none => simp [handle_callback, hf]
  | some c =>
    by_cases hc : c = "" <;> simp [handle_callback, hc, hf]

theorem handle_callback_resolves (q : Option String) :
    (handle_callback q Fut.pending).1.done = true := by
  cases q with
  | none => rfl
  | some c =>
    by_cases hc : c = "" <;> simp [handle_callback, hc, Fut.done]

theorem run_callbacks_frozen (qs : List (Option String)) (f : Fut) (hf : f.done = true) :
    (run_callbacks qs f).1 = f := by
  induction qs with
  | nil => rfl
  | cons q rest ih =>
    simp only [run_callbacks]
    rw [handle_callback_done q f hf]
    exact ih

theorem run_callbacks_statuses (qs : List (Option String)) (f : Fut) :
    ∀ r ∈ (run_callbacks qs f).2, r.status = 200 := by
  induction qs generalizing f with
  | nil => simp [run_callbacks]
  | cons q rest ih =>
    intro r hr
    simp only [run_callbacks, List.mem_cons] at hr
    rcases hr with hr | hr
    · rw [hr]
      exact handle_callback_status q f
    · exact ih (handle_callback q f).1 r hr

/-- C6 (counterexample): a callback request whose `code` query parameter is
present but empty resolves the pending future with the no-code failure, not with
the code — refuting "with the code if the `code` query parameter is present". -/
theorem C6_counterexample :
    (handle_callback (some "") Fut.pending).1 = Fut.resolvedNoCode ∧
    (handle_callback (some "") Fut.pending).2.body = CallbackBody.failurePage ∧
    Fut.resolvedNoCode ≠ Fut.resolvedCode "" := by
  decide

/-- C6 (amended): during one flow only the first callback resolves the pending
future — with the code when the `code` parameter is present and non-empty, with
the no-code failure otherwise (absent or empty parameter); every later callback
leaves the resolution unchanged, and every callback completes with an HTTP 200
response. -/
theorem C6_single_resolution (q : Option String) (qs : List (Option String)) :
    (run_callbacks (q :: qs) Fut.pending).1 = (handle_callback q Fut.pending).1 ∧
    (∀ c, q = some c → c ≠ "" →
      (handle_callback q Fut.pending).1 = Fut.resolvedCode c) ∧
    (q = none ∨ q = some "" →
      (handle_callback q Fut.pending).1 = Fut.resolvedNoCode) ∧
    (∀ r ∈ (run_callbacks (q :: qs) Fut.pending).2, r.status = 200) := by
  refine ⟨?_, ?_, ?_, ?_⟩
  · simp only [run_callbacks]
    exact run_callbacks_frozen qs (handle_callback q Fut.pending).1
      (handle_callback_resolves q)
  · rintro c rfl hc
    simp [handle_callback, hc, Fut.done]
  · rintro (rfl | rfl) <;> rfl
  · exact run_callbacks_statuses (q :: qs) Fut.pending

/-- C6 witness: the amended theorem applied to a concrete sequence of three
callbacks, the first carrying code `abc`; the final resolution is `abc`. -/
theorem C6_single_resolution_witness :
    (run_callbacks [some "abc", some "xyz", none] Fut.pending).1 =
      Fut.resolvedCode "abc" := by
  have h := C6_single_resolution (some "abc") [some "xyz", none]
  rw [h.1]
  exact h.2.1 "abc" rfl (by decide)

/-- C7 (confirmed): whatever way the code wait ends — a code, the no-code failure,
a timeout, cancellation or a keyboard interrupt — the run stops the listener,
cleans up the runner and performs the grace sleep as its final actions, before the
result or exception leaves `get_code`; and on every start phase (including a
failed start-up) the runner cleanup and grace sleep still close the trace. -/
theorem C7_cleanup_always (o : WaitOutcome) :
    (get_code_run StartPhase.started o).2 =
      [ResAct.startListener, ResAct.openBrowser] ++
        [ResAct.stopListener, ResAct.cleanupRunner, ResAct.graceSleep] ∧
    (get_code_run StartPhase.started o).1 = get_code_result o ∧
    (∀ p, (get_code_run p o).2.getLast? = some ResAct.graceSleep ∧
      ResAct.cleanupRunner ∈ (get_code_run p o).2 ∧
      (p ≠ StartPhase.setupFails → ResAct.stopListener ∈ (get_code_run p o).2)) := by
  refine ⟨rfl, rfl, ?_⟩
  intro p
  cases p
  · exact ⟨rfl, by simp [get_code_run, get_code_body, get_code_cleanup],
      fun hp => absurd rfl hp⟩
  · exact ⟨rfl, by simp [get_code_run, get_code_body, get_code_cleanup],
      fun _ => by simp [get_code_run, get_code_body, get_code_cleanup]⟩
  · exact ⟨rfl, by simp [get_code_run, get_code_body, get_code_cleanup],
      fun _ => by simp [get_code_run, get_code_body, get_code_cleanup]⟩

/-- C7 witness: the theorem applied to a timed-out wait on a started listener. -/
theorem C7_cleanup_always_witness :
    (get_code_run StartPhase.started WaitOutcome.timedOut).2 =
      [ResAct.startListener, ResAct.openBrowser] ++
        [ResAct.stopListener, ResAct.cleanupRunner, ResAct.graceSleep] ∧
    ResAct.stopListener ∈ (get_code_run StartPhase.started WaitOutcome.timedOut).2 :=
  ⟨(C7_cleanup_always WaitOutcome.timedOut).1,
   ((C7_cleanup_always WaitOutcome.timedOut).2.2 StartPhase.started).2.2 (by decide)⟩

/-- C8 (confirmed): at manager construction (both in-memory tokens absent), a
cache file that is absent, unreadable or unparseable, or whose record carries a
different `app_id`, leaves the state — and in particular both tokens — exactly as
if no record existed, and loading never raises (the embedding is a total
function); only a parsed record whose `app_id` equals the active identity
populates the in-memory access and refresh tokens with the record's fields. -/
theorem C8_cache_load (st : MgrState) (c : CacheFileState)
    (h0 : st.user_token = none) (h1 : st.refresh_token = none) :
    ((c = CacheFileState.absent ∨ c = CacheFileState.unreadable) →
      load_tokens_from_cache st c = st) ∧
    (∀ r, c = CacheFileState.record r → r.app_id ≠ some st.app_id →
      load_tokens_from_cache st c = st ∧
      (load_tokens_from_cache st c).user_token = none ∧
      (load_tokens_from_cache st c).refresh_token = none) ∧
    (∀ r, c = CacheFileState.record r → r.app_id = some st.app_id →
      load_tokens_from_cache st c =
        { st with user_token := r.access_token, refresh_token := r.refresh_token }) := by
  refine ⟨?_, ?_, ?_⟩
  · rintro (rfl | rfl) <;> rfl
  · rintro r rfl hne
    refine ⟨?_, ?_, ?_⟩ <;> simp [load_tokens_from_cache, hne, h0, h1]
  · rintro r rfl heq
    simp [load_tokens_from_cache, heq]

/-- C8 witness: the theorem applied at a freshly constructed state and a record
stored by a different application identity. -/
theorem C8_cache_load_witness :
    load_tokens_from_cache freshState
        (CacheFileState.record ⟨some "OTHER", some "X", some "Y"⟩) = freshState ∧
    (load_tokens_from_cache freshState
        (CacheFileState.record ⟨some "OTHER", some "X", some "Y"⟩)).user_token = none :=
  ⟨((C8_cache_load freshState _ rfl rfl).2.1 ⟨some "OTHER", some "X", some "Y"⟩ rfl
      (by decide)).1,
   ((C8_cache_load freshState _ rfl rfl).2.1 ⟨some "OTHER", some "X", some "Y"⟩ rfl
      (by decide)).2.1⟩

theorem set_tokens_user (st : MgrState) (a : String) (r : Option String) :
    (set_tokens st a r).user_token = some a := by
  simp only [set_tokens, save_tokens_to_cache]
  split <;> rfl

theorem ensure_eq_after_setup (st : MgrState) (codeRes : Except PyErr String)
    (resp : TokenResp) (h : optTruthy st.user_token = false) :
    ensure_user_token st codeRes resp = ensure_after_setup st codeRes resp := by
  unfold ensure_user_token
  cases hu : st.user_token with
  | none => rfl
  | some t =>
    have ht : t = "" := by
      rw [hu] at h
      simpa [optTruthy] using h
    simp [ht]

/-- C9 (confirmed): holding a truthy access token, `ensure_user_token` returns it
with the state unchanged and without consulting the authorization flow; with no
truthy token it runs the flow, returning the newly stored token on success and
propagating the flow's error — including the `ValueError` raised when the flow
yields no access token — on failure. -/
theorem C9_ensure_token (st : MgrState) (codeRes : Except PyErr String)
    (resp : TokenResp) :
    (∀ t, st.user_token = some t → t ≠ "" →
      ensure_user_token st codeRes resp = .ok (t, st)) ∧
    (optTruthy st.user_token = false →
      (∀ st1, setup_user_token st codeRes resp = .ok st1 →
        ∃ t, st1.user_token = some t ∧ t ≠ "" ∧
          ensure_user_token st codeRes resp = .ok (t, st1)) ∧
      (∀ e, setup_user_token st codeRes resp = .error e →
        ensure_user_token st codeRes resp = .error e)) := by
  constructor
  · rintro t ht hne
    simp [ensure_user_token, ht, hne]
  · intro hfalse
    constructor
    · intro st1 hset
      obtain ⟨a, refresh, ha, hst1⟩ : ∃ a refresh, a ≠ "" ∧ st1 = set_tokens st a refresh := by
        unfold setup_user_token at hset
        cases codeRes with
        | error e => exact absurd hset (by simp)
        | ok code =>
          cases resp with
          | networkError => exact absurd hset (by simp [get_access_token])
          | httpError s => exact absurd hset (by simp [get_access_token])
          | malformed => exact absurd hset (by simp [get_access_token])
          | body access refresh =>
            cases access with
            | none => exact absurd hset (by simp [get_access_token])
            | some a =>
              by_cases haa : a = ""
              · rw [haa] at hset
                exact absurd hset (by simp [get_access_token])
              · refine ⟨a, refresh, haa, ?_⟩
                simp [get_access_token, haa] at hset
                exact hset.symm
      refine ⟨a, by rw [hst1]; exact set_tokens_user st a refresh, ha, ?_⟩
      rw [ensure_eq_after_setup st codeRes resp hfalse]
      unfold ensure_after_setup
      rw [hset, hst1]
      simp [set_tokens_user, ha]
    · intro e hset
      rw [ensure_eq_after_setup st codeRes resp hfalse]
      unfold ensure_after_setup
      rw [hset]

/-- C9 witness: the theorem applied at a fresh state whose authorization flow
succeeds with code `abc123` and tokens `T1`/`R1`. -/
theorem C9_ensure_token_witness :
    ensure_user_token freshState (.ok "abc123") (TokenResp.body (some "T1") (some "R1")) =
      .ok ("T1", set_tokens freshState "T1" (some "R1")) := by
  obtain ⟨t, ht, _, heq⟩ := ((C9_ensure_token freshState (.ok "abc123")
      (TokenResp.body (some "T1") (some "R1"))).2 (by decide)).1
    (set_tokens freshState "T1" (some "R1")) rfl
  rw [set_tokens_user] at ht
  rw [← Option.some.inj ht] at heq
  exact heq

theorem headersContract_base (h0 : Headers) (t : String) :
    headersContract h0
      (dictSetdefault (dictSet h0 "Authorization" ("Bearer " ++ t))
        "Content-Type" "application/json") := by
  have hne : ("Authorization" : String) ≠ "Content-Type" := by decide
  refine ⟨⟨t, ?_⟩, ?_, ?_, ?_⟩
  · rw [dictSetdefault_other _ _ _ _ hne]
    exact dictSet_same h0 "Authorization" ("Bearer " ++ t)
  · intro v hv
    have hs : dictSet h0 "Authorization" ("Bearer " ++ t) "Content-Type" = some v := by
      rw [dictSet_other _ _ _ _ (Ne.symm hne)]
      exact hv
    exact dictSetdefault_of_some _ _ _ v hs
  · intro hv
    have hs : dictSet h0 "Authorization" ("Bearer " ++ t) "Content-Type" = none := by
      rw [dictSet_other _ _ _ _ (Ne.symm hne)]
      exact hv
    exact dictSetdefault_of_none _ _ _ hs
  · intro k hk1 hk2
    rw [dictSetdefault_other _ _ _ _ hk2, dictSet_other _ _ _ _ hk1]

theorem headersContract_setAuth (h0 h1 : Headers) (t : String)
    (hc : headersContract h0 h1) :
    headersContract h0 (dictSet h1 "Authorization" ("Bearer " ++ t)) := by
  obtain ⟨_, hCT, hCTn, hother⟩ := hc
  have hne : ("Content-Type" : String) ≠ "Authorization" := by decide
  refine ⟨⟨t, dictSet_same _ _ _⟩, ?_, ?_, ?_⟩
  · intro v hv
    rw [dictSet_other _ _ _ _ hne]
    exact hCT v hv
  · intro hv
    rw [dictSet_other _ _ _ _ hne]
    exact hCTn hv
  · intro k hk1 hk2
    rw [dictSet_other _ _ _ _ hk1]
    exact hother k hk1 hk2

theorem request_reauth_contract (st : MgrState) (h0 h2 : Headers) (w : World)
    (si : Nat) (rc : List Call) (hc : headersContract h0 h2) :
    headersContract h0 (request_reauth st h2 w si rc).headers := by
  simp only [request_reauth]
  split
  · exact hc
  · split
    · split
      · exact hc
      · exact headersContract_setAuth _ _ _ hc
    · exact hc

theorem request_with_token_contract (st : MgrState) (tok : String) (h0 : Headers)
    (w : World) (si : Nat) :
    headersContract h0 (request_with_token st tok h0 w si).headers := by
  have hbase := headersContract_base h0 tok
  simp only [request_with_token]
  split
  · split
    · split
      · exact request_reauth_contract _ _ _ w si _ hbase
      · exact headersContract_setAuth _ _ _ hbase
    · exact request_reauth_contract _ _ _ w si _ hbase
  · exact hbase

theorem request_start_noToken_contract (st : MgrState) (h0 : Headers) (w : World)
    (r : Resp) (hok : (request_start_noToken st h0 w).result = .ok r) :
    headersContract h0 (request_start_noToken st h0 w).headers := by
  rcases h : ensure_after_setup st (w.codeRes 0) (w.exchangeResp 0) with e | ⟨t1, st1⟩
  · simp [request_start_noToken, h] at hok
  · simp only [request_start_noToken, h]
    exact request_with_token_contract st1 t1 h0 w 1

/-- C10 (confirmed): whenever a pipeline request given a caller-supplied header
dictionary returns a response, the dictionary the caller observes afterwards
(modelled as the final dictionary threaded through the call) carries a freshly
written bearer `Authorization` value even when the caller supplied one, keeps a
caller-supplied `Content-Type` unchanged, holds `application/json` under
`Content-Type` only when the caller supplied none, and is untouched at every
other key. -/
theorem C10_headers_mutation (st : MgrState) (h0 : Headers) (w : World) (r : Resp)
    (hok : (request st (some h0) w).result = .ok r) :
    headersContract h0 (request st (some h0) w).headers := by
  cases hu : st.user_token with
  | some t =>
    by_cases ht : t = ""
    · rw [request] at hok ⊢
      simp only [hu, if_pos ht] at hok ⊢
      exact request_start_noToken_contract st h0 w r hok
    · simp only [request, hu, if_neg ht]
      exact request_with_token_contract st t h0 w 0
  | none =>
    rw [request] at hok ⊢
    simp only [hu] at hok ⊢
    exact request_start_noToken_contract st h0 w r hok

/-- C10 witness: the theorem applied at a concrete request whose caller supplied
`Authorization`, `Content-Type` and an unrelated key. -/
theorem C10_headers_mutation_witness :
    headersContract suppliedHeaders
      (request exampleState (some suppliedHeaders) refreshOkWorld).headers :=
  C10_headers_mutation exampleState suppliedHeaders refreshOkWorld ⟨401, 1⟩ rfl

end FeishuMcp
